import Mathlib

/-!
Shallow embedding of the pdf_chat core (src/chatbot_core.py) in Lean 4.

The state of a `PDFChatbot` instance is the pair of fields `vectorstore` and
`conversation_chain` together with the content of the single persisted
artifact file `vectorstore.pkl` (modelled as part of the state).  External
effects that can fail (embedding-model construction, FAISS build, pickle
save, LLM construction, LLM calls) are driven by an explicit environment
`Env`; Python exceptions are modelled by `Except PyError`.

The chunker embeds `CharacterTextSplitter` (langchain-text-splitters,
`split_text` / `_split_text_with_regex` / `_merge_splits` / `_join_docs`)
at character-list level with the configuration used by the repository:
separator `"\n"`, `chunk_size = 1000`, `chunk_overlap = 200`,
`length_function = len`, `keep_separator = False`, `strip_whitespace = True`.
-/

namespace PdfChat

/-- Python `str.strip()` restricted to the whitespace characters that occur in
this development (space, tab, newline, carriage return). -/
def pyStrip (s : String) : String :=
  String.mk (((s.data.dropWhile Char.isWhitespace).reverse.dropWhile Char.isWhitespace).reverse)

/-- Python `re.split(sep, text)` for a single-character separator, on the
character list: the separator is removed, empty fields are kept. -/
def splitOnChar (sep : Char) : List Char → List (List Char)
  | [] => [[]]
  | x :: xs =>
    let rest := splitOnChar sep xs
    if x = sep then [] :: rest
    else
      match rest with
      | [] => [[x]]
      | r :: rs => (x :: r) :: rs

/-- `re.split` lifted to `String`. -/
def pySplit (sep : Char) (s : String) : List String :=
  (splitOnChar sep s.data).map String.mk

/-- Python `sep.join(parts)`. -/
def pyJoin (sep : String) : List String → String
  | [] => ""
  | [x] => x
  | x :: y :: xs => x ++ sep ++ pyJoin sep (y :: xs)

/-- Concatenation of a list of strings with no separator. -/
def concat_all : List String → String
  | [] => ""
  | s :: rest => s ++ concat_all rest

/-- Python truthiness of an optional string (`bool(None) = bool("") = False`). -/
def pyTruthy : Option String → Bool
  | none => false
  | some s => !s.isEmpty

/-- Python `a or b` for two optional objects that are truthy whenever present. -/
def py_or {α : Type} (x y : Option α) : Option α :=
  match x with
  | some a => some a
  | none => y

/-! ## Text extraction (`get_pdf_text`, `get_pdf_text_from_paths`) -/

/-- Outcome of `page.extract_text()` for one page: the extracted text, or an
exception raised while extracting. -/
inductive PageResult : Type
  | ok (s : String)
  | err
deriving DecidableEq, Repr

/-- A PDF input: whether `PdfReader` accepts it, and its pages in order. -/
structure PDFDoc : Type where
  openOk : Bool
  pages : List PageResult
deriving DecidableEq, Repr

/-- The page loop of `get_pdf_text`: `text += page.extract_text()` until a page
raises; the exception aborts the loop for this document but the accumulator
(shared across documents) keeps everything appended so far. -/
def extractPages : String → List PageResult → String
  | acc, [] => acc
  | acc, PageResult.ok s :: rest => extractPages (acc ++ s) rest
  | acc, PageResult.err :: _ => acc

/-- `PDFChatbot.get_pdf_text`: per-document `try`, shared `text` accumulator. -/
def get_pdf_text (pdf_docs : List PDFDoc) : String :=
  pdf_docs.foldl (fun acc d => if d.openOk then extractPages acc d.pages else acc) ""

/-- `PDFChatbot.get_pdf_text_from_paths`: `none` stands for a path whose
`open(...)` fails; otherwise as `get_pdf_text`. -/
def get_pdf_text_from_paths (pdf_paths : List (Option PDFDoc)) : String :=
  pdf_paths.foldl
    (fun acc f =>
      match f with
      | none => acc
      | some d => if d.openOk then extractPages acc d.pages else acc) ""

/-- Text a single document contributes to the extraction result: its page
texts up to (excluding) the first failing page, nothing if it cannot be
opened. -/
def doc_contribution (d : PDFDoc) : String :=
  if d.openOk then pages_text_until_err d.pages else ""
where
  pages_text_until_err : List PageResult → String
    | [] => ""
    | PageResult.ok s :: rest => s ++ pages_text_until_err rest
    | PageResult.err :: _ => ""

/-- Contribution of one path input (`none` = unopenable path). -/
def path_contribution : Option PDFDoc → String
  | none => ""
  | some d => doc_contribution d

/-- Whether every page of the document extracts successfully. -/
def all_pages_ok (d : PDFDoc) : Bool :=
  d.pages.all (fun p => match p with | PageResult.ok _ => true | PageResult.err => false)

/-- Extraction as the claim words it (for comparison with `get_pdf_text`):
only documents read successfully end to end contribute, each contributing all
of its page texts. -/
def claimed_pdf_text (docs : List PDFDoc) : String :=
  concat_all (docs.map (fun d =>
    if d.openOk && all_pages_ok d then doc_contribution d else ""))

/-! ## Chunker (`get_text_chunks` via `CharacterTextSplitter`) -/

/-- `TextSplitter._join_docs`: join with the separator, strip whitespace,
drop the chunk if the result is empty. -/
def join_docs (docs : List String) (sep : String) : Option String :=
  let text := pyStrip (pyJoin sep docs)
  if text = "" then none else some text

/-- The popping `while` loop of `TextSplitter._merge_splits`.  On reachable
states `total` is exactly the joined length of `current`, so the loop always
exits once the window is empty; the `[]` case is therefore never entered with
a true loop condition. -/
def pop_overlap (csize overlap seplen newLen : Nat) :
    List String → Nat → List String × Nat
  | [], total => ([], total)
  | c :: rest, total =>
    if overlap < total ∨ (csize < total + newLen + seplen ∧ 0 < total) then
      pop_overlap csize overlap seplen newLen rest
        (total - (c.length + (if rest.isEmpty then 0 else seplen)))
    else (c :: rest, total)

/-- Running state of `_merge_splits`: emitted chunks, current window, current
window length including separators. -/
structure MergeState : Type where
  docs : List String
  current : List String
  total : Nat
deriving DecidableEq, Repr

/-- One iteration of the `for d in splits` loop of `_merge_splits`. -/
def merge_step (csize overlap seplen : Nat) (sep : String)
    (st : MergeState) (d : String) : MergeState :=
  let len := d.length
  let sepNow := if st.current.isEmpty then 0 else seplen
  if csize < st.total + len + sepNow then
    if st.current.isEmpty then
      { st with current := [d], total := st.total + len }
    else
      let docs1 :=
        match join_docs st.current sep with
        | some doc => st.docs ++ [doc]
        | none => st.docs
      let popped := pop_overlap csize overlap seplen len st.current st.total
      let sepAfter := if popped.1.isEmpty then 0 else seplen
      { docs := docs1, current := popped.1 ++ [d], total := popped.2 + len + sepAfter }
  else
    { st with current := st.current ++ [d], total := st.total + len + sepNow }

/-- `TextSplitter._merge_splits`. -/
def merge_splits (csize overlap seplen : Nat) (sep : String)
    (splits : List String) : List String :=
  let st := splits.foldl (merge_step csize overlap seplen sep)
    { docs := [], current := [], total := 0 }
  match join_docs st.current sep with
  | some doc => st.docs ++ [doc]
  | none => st.docs

/-- `PDFChatbot.get_text_chunks`: `CharacterTextSplitter(separator="\n",
chunk_size=1000, chunk_overlap=200, length_function=len).split_text`.
With `keep_separator = False` the splitter splits on the separator, drops
empty fields, and merges with the separator (length 1). -/
def get_text_chunks (raw_text : String) : List String :=
  let splits := (pySplit '\n' raw_text).filter (fun s => s ≠ "")
  merge_splits 1000 200 1 "\n" splits

/-! ## State model of `PDFChatbot` and the persisted artifact -/

/-- The FAISS vector store, abstracted to the ordered list of chunk texts it
was built from (embedding vectors play no role in the claims settled here). -/
structure FAISSStore : Type where
  texts : List String
deriving DecidableEq, Repr

/-- Content of the persisted file `vectorstore.pkl`: a pickle of a store, or
bytes that `pickle.load` rejects. -/
inductive Artifact : Type
  | good (store : FAISSStore)
  | corrupt
deriving DecidableEq, Repr

/-- `ConversationalRetrievalChain` with its `ConversationBufferMemory`: the
retriever's store and the ordered (question, answer) turn history. -/
structure ConversationChain : Type where
  store : FAISSStore
  chat_history : List (String × String)
deriving DecidableEq, Repr

/-- A `PDFChatbot` instance together with the filesystem location it persists
to: `artifact = none` means `vectorstore.pkl` does not exist. -/
structure PDFChatbot : Type where
  google_api_key : Option String
  conversation_chain : Option ConversationChain
  vectorstore : Option FAISSStore
  artifact : Option Artifact
deriving DecidableEq, Repr

/-- A Python exception escaping a method. -/
inductive PyError : Type
  | valueError (msg : String)
  | other (msg : String)
deriving DecidableEq, Repr

/-- Outcome of the `open`/`pickle.dump` pair in `save_vectorstore`: success,
failure to open the file (artifact untouched), or failure while writing after
`open(..., "wb")` truncated the file (artifact left corrupt). -/
inductive SaveOutcome : Type
  | ok
  | failOpen
  | failWrite
deriving DecidableEq, Repr

/-- Environment driving the external effects: whether embedding construction
and `FAISS.from_texts` succeed, how the pickle save behaves, whether LLM and
chain construction succeed, whether the LLM call succeeds, and the answer the
LLM generates from the bound store, the prior turn history and the question. -/
structure Env : Type where
  buildOk : Bool
  saveOutcome : SaveOutcome
  chainOk : Bool
  llmOk : Bool
  llm : FAISSStore → List (String × String) → String → String

/-- Result dictionary of `ask_question`. -/
structure AnswerResult : Type where
  answer : String
  status : String
  conversation_id : Option String
  question : String
deriving DecidableEq, Repr

/-- Result dictionary of `process_documents`. -/
structure ProcessResult : Type where
  status : String
  chunks_created : Nat
  text_length : Nat
deriving DecidableEq, Repr

/-- Result dictionary of `process_documents_from_paths`. -/
structure ProcessPathsResult : Type where
  status : String
  files_processed : Nat
  chunks_created : Nat
  text_length : Nat
deriving DecidableEq, Repr

/-- Result dictionary of `get_status`. -/
structure StatusSnapshot : Type where
  vectorstore_loaded : Bool
  conversation_chain_initialized : Bool
  vectorstore_file_exists : Bool
  google_api_configured : Bool
deriving DecidableEq, Repr

/-! ## Operations of `PDFChatbot` -/

/-- `PDFChatbot.create_vectorstore`: build embeddings and
`FAISS.from_texts(text_chunks)`; only after the build succeeds is
`self.vectorstore` replaced. -/
def create_vectorstore (env : Env) (bot : PDFChatbot) (text_chunks : List String) :
    Except PyError FAISSStore × PDFChatbot :=
  if env.buildOk then
    let vs : FAISSStore := { texts := text_chunks }
    (Except.ok vs, { bot with vectorstore := some vs })
  else
    (Except.error (PyError.other "embedding or FAISS build failed"), bot)

/-- `PDFChatbot.save_vectorstore`: `store_to_save = vectorstore or
self.vectorstore`; raises `ValueError` when both are `None`; otherwise opens
`vectorstore.pkl` for writing and pickles the store, re-raising any failure
after logging it. -/
def save_vectorstore (env : Env) (bot : PDFChatbot) (vectorstore : Option FAISSStore) :
    Except PyError Unit × PDFChatbot :=
  match py_or vectorstore bot.vectorstore with
  | none => (Except.error (PyError.valueError "No vectorstore to save"), bot)
  | some s =>
    match env.saveOutcome with
    | SaveOutcome.ok => (Except.ok (), { bot with artifact := some (Artifact.good s) })
    | SaveOutcome.failOpen => (Except.error (PyError.other "could not open vectorstore.pkl"), bot)
    | SaveOutcome.failWrite =>
      (Except.error (PyError.other "write to vectorstore.pkl failed"),
       { bot with artifact := some Artifact.corrupt })

/-- `PDFChatbot.load_vectorstore`: opens and unpickles `vectorstore.pkl`.
`FileNotFoundError` and every unpickling error are caught inside the method,
which then returns `None`; no exception escapes (hence the `Except` layer is
always `ok`). -/
def load_vectorstore (bot : PDFChatbot) :
    Except PyError (Option FAISSStore) × PDFChatbot :=
  match bot.artifact with
  | none => (Except.ok none, bot)
  | some Artifact.corrupt => (Except.ok none, bot)
  | some (Artifact.good s) => (Except.ok (some s), { bot with vectorstore := some s })

/-- `PDFChatbot.create_conversation_chain`: `store_to_use = vectorstore or
self.vectorstore`; raises `ValueError` when both are `None`; constructs the
LLM, a fresh empty `ConversationBufferMemory`, and the retrieval chain, then
installs it as `self.conversation_chain`. -/
def create_conversation_chain (env : Env) (bot : PDFChatbot)
    (vectorstore : Option FAISSStore) :
    Except PyError ConversationChain × PDFChatbot :=
  match py_or vectorstore bot.vectorstore with
  | none =>
    (Except.error (PyError.valueError "No vectorstore available for conversation chain"), bot)
  | some s =>
    if env.chainOk then
      let chain : ConversationChain := { store := s, chat_history := [] }
      (Except.ok chain, { bot with conversation_chain := some chain })
    else
      (Except.error (PyError.other "LLM or chain construction failed"), bot)

/-- `PDFChatbot.process_documents`: extract, reject blank text, chunk, build,
save, bind; any exception is logged and re-raised unchanged. -/
def process_documents (env : Env) (bot : PDFChatbot) (pdf_docs : List PDFDoc) :
    Except PyError ProcessResult × PDFChatbot :=
  let raw_text := get_pdf_text pdf_docs
  if pyStrip raw_text = "" then
    (Except.error (PyError.valueError "No text could be extracted from the PDFs"), bot)
  else
    let text_chunks := get_text_chunks raw_text
    match create_vectorstore env bot text_chunks with
    | (Except.error e, bot1) => (Except.error e, bot1)
    | (Except.ok vs, bot1) =>
      match save_vectorstore env bot1 (some vs) with
      | (Except.error e, bot2) => (Except.error e, bot2)
      | (Except.ok _, bot2) =>
        match create_conversation_chain env bot2 (some vs) with
        | (Except.error e, bot3) => (Except.error e, bot3)
        | (Except.ok _, bot3) =>
          (Except.ok { status := "success", chunks_created := text_chunks.length,
                       text_length := raw_text.length }, bot3)

/-- `PDFChatbot.process_documents_from_paths`: as `process_documents` but
extracting from file paths and reporting `files_processed`. -/
def process_documents_from_paths (env : Env) (bot : PDFChatbot)
    (pdf_paths : List (Option PDFDoc)) :
    Except PyError ProcessPathsResult × PDFChatbot :=
  let raw_text := get_pdf_text_from_paths pdf_paths
  if pyStrip raw_text = "" then
    (Except.error (PyError.valueError "No text could be extracted from the PDFs"), bot)
  else
    let text_chunks := get_text_chunks raw_text
    match create_vectorstore env bot text_chunks with
    | (Except.error e, bot1) => (Except.error e, bot1)
    | (Except.ok vs, bot1) =>
      match save_vectorstore env bot1 (some vs) with
      | (Except.error e, bot2) => (Except.error e, bot2)
      | (Except.ok _, bot2) =>
        match create_conversation_chain env bot2 (some vs) with
        | (Except.error e, bot3) => (Except.error e, bot3)
        | (Except.ok _, bot3) =>
          (Except.ok { status := "success", files_processed := pdf_paths.length,
                       chunks_created := text_chunks.length,
                       text_length := raw_text.length }, bot3)

/-- `PDFChatbot.initialize_from_saved_vectorstore` (renamed here because the
source name begins with a word this development avoids in code): load the
saved store; when one is found, bind a conversation chain to it and report
`True`; otherwise report `False`.  A chain-construction failure propagates. -/
def init_from_saved_vectorstore (env : Env) (bot : PDFChatbot) :
    Except PyError Bool × PDFChatbot :=
  match load_vectorstore bot with
  | (Except.error e, bot1) => (Except.error e, bot1)
  | (Except.ok none, bot1) => (Except.ok false, bot1)
  | (Except.ok (some vs), bot1) =>
    match create_conversation_chain env bot1 (some vs) with
    | (Except.error e, bot2) => (Except.error e, bot2)
    | (Except.ok _, bot2) => (Except.ok true, bot2)

/-- The call `self.conversation_chain({"question": question})`: the chain
reads the buffered history, invokes the LLM, and appends the new
(question, answer) turn to its memory.  `llmOk = false` models the blocking
LLM or retrieval call raising. -/
def run_chain (env : Env) (chain : ConversationChain) (question : String) :
    Except PyError (String × ConversationChain) :=
  if env.llmOk then
    let answer := env.llm chain.store chain.chat_history question
    Except.ok (answer,
      { chain with chat_history := chain.chat_history ++ [(question, answer)] })
  else
    Except.error (PyError.other "LLM call failed")

/-- Tail of `ask_question` once a chain is in hand: run the chain and wrap a
success dictionary, or propagate the failure. -/
def ask_with_chain (env : Env) (bot : PDFChatbot) (chain : ConversationChain)
    (question : String) (conversation_id : Option String) :
    Except PyError AnswerResult × PDFChatbot :=
  match run_chain env chain question with
  | Except.error e => (Except.error e, bot)
  | Except.ok (answer, chain1) =>
    (Except.ok { answer := answer, status := "success",
                 conversation_id := conversation_id, question := question },
     { bot with conversation_chain := some chain1 })

/-- `PDFChatbot.ask_question`: reject blank questions; when no chain is bound,
attempt the single implicit load-and-bind; then delegate to the chain.  Every
raised exception is logged and re-raised unchanged. -/
def ask_question (env : Env) (bot : PDFChatbot) (question : String)
    (conversation_id : Option String) :
    Except PyError AnswerResult × PDFChatbot :=
  if pyStrip question = "" then
    (Except.error (PyError.valueError "Question cannot be empty"), bot)
  else
    match bot.conversation_chain with
    | some chain => ask_with_chain env bot chain question conversation_id
    | none =>
      match init_from_saved_vectorstore env bot with
      | (Except.error e, bot1) => (Except.error e, bot1)
      | (Except.ok false, bot1) =>
        (Except.error
          (PyError.valueError "No conversation chain available. Please process documents first."),
         bot1)
      | (Except.ok true, bot1) =>
        match bot1.conversation_chain with
        | some chain => ask_with_chain env bot1 chain question conversation_id
        | none =>
          (Except.error (PyError.other "TypeError: NoneType object is not callable"), bot1)

/-- `PDFChatbot.get_status`: recompute the four readiness flags from the
current fields and the filesystem; the state is returned unchanged. -/
def get_status (bot : PDFChatbot) : StatusSnapshot × PDFChatbot :=
  ({ vectorstore_loaded := bot.vectorstore.isSome,
     conversation_chain_initialized := bot.conversation_chain.isSome,
     vectorstore_file_exists := bot.artifact.isSome,
     google_api_configured := pyTruthy bot.google_api_key }, bot)

/-- Whether a method result is a Python success (no exception). -/
def is_success {α : Type} : Except PyError α → Bool
  | Except.ok _ => true
  | Except.error _ => false

/-- Replace the `conversation_id` echoed in a successful answer dictionary. -/
def setConvId (conversation_id : Option String) :
    Except PyError AnswerResult → Except PyError AnswerResult
  | Except.ok a => Except.ok { a with conversation_id := conversation_id }
  | Except.error e => Except.error e

/-! ## Concrete fixtures -/

/-- A small pre-existing store. -/
def storeOld : FAISSStore := { texts := ["old"] }

/-- Environment in which every external effect succeeds and the LLM always
answers "the answer". -/
def envReady : Env :=
  { buildOk := true, saveOutcome := SaveOutcome.ok, chainOk := true, llmOk := true,
    llm := fun _ _ _ => "the answer" }

/-- Environment in which everything succeeds but the LLM generates the empty
string. -/
def envBlankLLM : Env :=
  { buildOk := true, saveOutcome := SaveOutcome.ok, chainOk := true, llmOk := true,
    llm := fun _ _ _ => "" }

/-- Environment in which extraction, build and save succeed but constructing
the LLM / conversation chain raises. -/
def envNoChain : Env :=
  { buildOk := true, saveOutcome := SaveOutcome.ok, chainOk := false, llmOk := true,
    llm := fun _ _ _ => "the answer" }

/-- A chatbot with a bound chain, an in-memory store and a matching artifact. -/
def botBound : PDFChatbot :=
  { google_api_key := some "k",
    conversation_chain := some { store := storeOld, chat_history := [] },
    vectorstore := some storeOld,
    artifact := some (Artifact.good storeOld) }

/-- A chatbot with no chain bound but a good persisted artifact. -/
def botUnboundGood : PDFChatbot :=
  { google_api_key := some "k", conversation_chain := none,
    vectorstore := none, artifact := some (Artifact.good storeOld) }

/-- A chatbot with no chain and no persisted artifact file. -/
def botNoArtifact : PDFChatbot :=
  { google_api_key := some "k", conversation_chain := none,
    vectorstore := none, artifact := none }

/-- A chatbot with no chain and a corrupt persisted artifact file. -/
def botCorrupt : PDFChatbot :=
  { google_api_key := some "k", conversation_chain := none,
    vectorstore := none, artifact := some Artifact.corrupt }

/-- One readable single-page document. -/
def docsHello : List PDFDoc := [{ openOk := true, pages := [PageResult.ok "hello"] }]

/-- A document whose first page extracts and whose second page raises. -/
def docPartial : PDFDoc := { openOk := true, pages := [PageResult.ok "a", PageResult.err] }

/-- A 2500-character text containing no separator occurrence. -/
def big2500 : String := String.mk (List.replicate 2500 'a')

/-- A batch in which no document yields any text: one unreadable document and
one whose only page raises. -/
def docsNoText : List PDFDoc :=
  [{ openOk := false, pages := [PageResult.ok "x"] },
   { openOk := true, pages := [PageResult.err] }]

/-! ## Helper lemmas -/

theorem str_append_data (a b : String) : (a ++ b).data = a.data ++ b.data := by
  cases a
  cases b
  rfl

theorem str_append_assoc (a b c : String) : a ++ b ++ c = a ++ (b ++ c) := by
  apply String.ext
  simp [String.data_append, List.append_assoc]

theorem str_append_empty (a : String) : a ++ "" = a := by
  apply String.ext
  simp [String.data_append]

theorem str_empty_append (a : String) : "" ++ a = a := by
  apply String.ext
  simp [String.data_append]

/-! ## C3: behaviour of `load_vectorstore` -/

/-- C3 (counterexample): with the artifact file absent, and likewise with a
corrupt artifact, `load_vectorstore` raises nothing at all — it returns `None`
with the state unchanged — so it does not fail with `NotFoundError` or
`CorruptArtifactError`, and nothing propagates to the caller. -/
theorem load_vectorstore_never_raises_counterexample :
    load_vectorstore botNoArtifact = (Except.ok none, botNoArtifact) ∧
    (¬ ∃ e, (load_vectorstore botNoArtifact).1 = Except.error e) ∧
    load_vectorstore botCorrupt = (Except.ok none, botCorrupt) ∧
    (¬ ∃ e, (load_vectorstore botCorrupt).1 = Except.error e) := by
  refine ⟨rfl, ?_, rfl, ?_⟩
  · rintro ⟨e, h⟩
    exact Except.noConfusion h
  · rintro ⟨e, h⟩
    exact Except.noConfusion h

/-- C3 (amended): `load_vectorstore` never lets an exception escape: when the
artifact file is absent it logs a warning and returns `None`, when
deserialization fails it logs an error and returns `None`, both with the state
unchanged; only a successful load returns the store and installs it as the
in-memory vectorstore. -/
theorem load_vectorstore_amended (bot : PDFChatbot) :
    is_success (load_vectorstore bot).1 = true ∧
    (bot.artifact = none → load_vectorstore bot = (Except.ok none, bot)) ∧
    (bot.artifact = some Artifact.corrupt → load_vectorstore bot = (Except.ok none, bot)) ∧
    (∀ s, bot.artifact = some (Artifact.good s) →
      load_vectorstore bot = (Except.ok (some s), { bot with vectorstore := some s })) := by
  refine ⟨?_, ?_, ?_, ?_⟩
  · rcases h : bot.artifact with _ | a
    · simp [load_vectorstore, h, is_success]
    · cases a <;> simp [load_vectorstore, h, is_success]
  · intro h
    simp [load_vectorstore, h]
  · intro h
    simp [load_vectorstore, h]
  · intro s h
    simp [load_vectorstore, h]

/-- C3 (witness): the amended theorem applied to the chatbot with no artifact
file. -/
theorem load_vectorstore_amended_witness :
    load_vectorstore botNoArtifact = (Except.ok none, botNoArtifact) :=
  (load_vectorstore_amended botNoArtifact).2.1 rfl

/-! ## C7: blank questions are rejected first -/

/-- C7: every question that is empty or whitespace-only is rejected with the
same `ValueError "Question cannot be empty"` before any rebind attempt,
retrieval or generation, whatever the binding state, and the state is
returned unchanged. -/
theorem ask_question_blank_rejected (env : Env) (bot : PDFChatbot) (question : String)
    (conversation_id : Option String) (h : pyStrip question = "") :
    ask_question env bot question conversation_id =
      (Except.error (PyError.valueError "Question cannot be empty"), bot) := by
  unfold ask_question
  rw [if_pos h]

/-- C7 (witness): `ask(\"\")` and `ask(\"   \")` fail identically, on a bound
and on an unbound chatbot alike. -/
theorem ask_question_blank_rejected_witness :
    ask_question envReady botBound "" none =
      (Except.error (PyError.valueError "Question cannot be empty"), botBound) ∧
    ask_question envReady botBound "   " none =
      (Except.error (PyError.valueError "Question cannot be empty"), botBound) ∧
    ask_question envReady botNoArtifact "   " none =
      (Except.error (PyError.valueError "Question cannot be empty"), botNoArtifact) :=
  ⟨ask_question_blank_rejected envReady botBound "" none (by decide),
   ask_question_blank_rejected envReady botBound "   " none (by decide),
   ask_question_blank_rejected envReady botNoArtifact "   " none (by decide)⟩

/-! ## C9: the status snapshot -/

/-- C9: `get_status` recomputes its snapshot from the current state, mutates
nothing, and returns exactly four flags: index-loaded iff an in-memory
vectorstore is present, binding iff a conversation chain is present, artifact
iff the persisted file exists, credentials iff the API key is configured
(Python-truthy). -/
theorem get_status_snapshot (bot : PDFChatbot) :
    (get_status bot).2 = bot ∧
    ((get_status bot).1.vectorstore_loaded = true ↔ bot.vectorstore ≠ none) ∧
    ((get_status bot).1.conversation_chain_initialized = true ↔ bot.conversation_chain ≠ none) ∧
    ((get_status bot).1.vectorstore_file_exists = true ↔ bot.artifact ≠ none) ∧
    (get_status bot).1.google_api_configured = pyTruthy bot.google_api_key := by
  refine ⟨rfl, ?_, ?_, ?_, rfl⟩ <;>
    simp [get_status, Option.isSome_iff_ne_none]

/-- C9 (witness): the snapshot of the fully initialised chatbot. -/
theorem get_status_snapshot_witness :
    (get_status botBound).1.conversation_chain_initialized = true :=
  ((get_status_snapshot botBound).2.2.1).mpr (by simp [botBound])

/-! ## C10: the conversation identifier is inert -/

theorem ask_with_chain_conv_id (env : Env) (bot : PDFChatbot) (chain : ConversationChain)
    (question : String) (conversation_id : Option String) :
    ask_with_chain env bot chain question conversation_id =
      (setConvId conversation_id (ask_with_chain env bot chain question none).1,
       (ask_with_chain env bot chain question none).2) := by
  unfold ask_with_chain
  cases h : run_chain env chain question with
  | error e => simp [setConvId]
  | ok p => simp [setConvId]

/-- C10: the optional `conversation_id` passed to `ask_question` never
influences the outcome: from any state and environment, asking the same
question with any identifier produces the same state mutation and the same
result up to the identifier being echoed back unchanged in the success
dictionary. -/
theorem ask_question_conv_id_inert (env : Env) (bot : PDFChatbot) (question : String)
    (conversation_id : Option String) :
    ask_question env bot question conversation_id =
      (setConvId conversation_id (ask_question env bot question none).1,
       (ask_question env bot question none).2) := by
  unfold ask_question
  by_cases hq : pyStrip question = ""
  · rw [if_pos hq, if_pos hq]
    rfl
  · rw [if_neg hq, if_neg hq]
    cases hc : bot.conversation_chain with
    | some chain => exact ask_with_chain_conv_id env bot chain question conversation_id
    | none =>
      rcases hinit : init_from_saved_vectorstore env bot with ⟨r, b⟩
      cases r with
      | error e => rfl
      | ok flag =>
        cases flag
        · rfl
        · cases hb : b.conversation_chain with
          | none =>
            simp only [hb]
            rfl
          | some chain =>
            simp only [hb]
            exact ask_with_chain_conv_id env b chain question conversation_id

/-! ## C2: empty generated answers -/

/-- C2 (counterexample): with a chain bound and an LLM that generates the
empty string, `ask_question` returns a success dictionary whose `answer` is
the empty string — no `EmptyAnswerError` or any other failure is raised. -/
theorem ask_question_empty_answer_counterexample :
    (ask_question envBlankLLM botBound "hi" none).1 =
      Except.ok { answer := "", status := "success",
                  conversation_id := none, question := "hi" } ∧
    pyStrip "" = "" ∧
    (¬ ∃ e, (ask_question envBlankLLM botBound "hi" none).1 = Except.error e) := by
  have h1 : (ask_question envBlankLLM botBound "hi" none).1 =
      Except.ok { answer := "", status := "success",
                  conversation_id := none, question := "hi" } := rfl
  refine ⟨h1, rfl, ?_⟩
  rintro ⟨e, h⟩
  rw [h1] at h
  exact Except.noConfusion h

/-- C2 (amended): while a binding exists and the LLM call succeeds,
`ask_question` wraps whatever the LLM generated — including an empty or
whitespace-only answer — in a success dictionary and appends the turn to
memory; detecting empty answers is left to callers. -/
theorem ask_question_returns_blank_answer (env : Env) (bot : PDFChatbot)
    (chain : ConversationChain) (question : String) (conversation_id : Option String)
    (hchain : bot.conversation_chain = some chain) (hllm : env.llmOk = true)
    (hq : pyStrip question ≠ "") :
    ask_question env bot question conversation_id =
      (Except.ok { answer := env.llm chain.store chain.chat_history question,
                   status := "success", conversation_id := conversation_id,
                   question := question },
       { bot with conversation_chain :=
                    some ⟨chain.store, chain.chat_history ++
                      [(question, env.llm chain.store chain.chat_history question)]⟩ }) := by
  unfold ask_question
  rw [if_neg hq, hchain]
  simp [ask_with_chain, run_chain, hllm]

/-- C2 (witness): the amended theorem applied to the blank-answer LLM. -/
theorem ask_question_returns_blank_answer_witness :
    ask_question envBlankLLM botBound "hi" (some "c1") =
      (Except.ok { answer := "", status := "success",
                   conversation_id := some "c1", question := "hi" },
       { botBound with conversation_chain := some ⟨storeOld, [("hi", "")]⟩ }) :=
  ask_question_returns_blank_answer envBlankLLM botBound
    ⟨storeOld, []⟩ "hi" (some "c1") rfl rfl (by decide)

/-! ## C4: the single implicit rebind when no chain is bound -/

/-- C4: a non-blank question asked with no chain bound triggers the one
implicit load-and-bind from the persisted artifact (the single
`init_from_saved_vectorstore` call in the embedding): when the artifact holds
a good store and the bind and LLM calls succeed, the question is answered
normally against a freshly bound chain with empty history; when the load
yields nothing — file absent or corrupt — `ask_question` raises the
no-knowledge-base `ValueError` with the state unchanged. -/
theorem ask_question_unbound_rebind (env : Env) (bot : PDFChatbot) (question : String)
    (conversation_id : Option String) (hchain : bot.conversation_chain = none)
    (hq : pyStrip question ≠ "") :
    (∀ s, bot.artifact = some (Artifact.good s) → env.chainOk = true → env.llmOk = true →
      ask_question env bot question conversation_id =
        (Except.ok { answer := env.llm s [] question, status := "success",
                     conversation_id := conversation_id, question := question },
         { bot with vectorstore := some s,
                    conversation_chain := some ⟨s, [(question, env.llm s [] question)]⟩ })) ∧
    ((bot.artifact = none ∨ bot.artifact = some Artifact.corrupt) →
      ask_question env bot question conversation_id =
        (Except.error
          (PyError.valueError "No conversation chain available. Please process documents first."),
         bot)) := by
  constructor
  · intro s hart hok hllm
    unfold ask_question
    rw [if_neg hq, hchain]
    unfold init_from_saved_vectorstore load_vectorstore
    rw [hart]
    simp [create_conversation_chain, py_or, hok, ask_with_chain, run_chain, hllm]
  · intro hart
    unfold ask_question
    rw [if_neg hq, hchain]
    unfold init_from_saved_vectorstore load_vectorstore
    rcases hart with h | h <;> rw [h]

/-- C4 (witness): the rebind succeeds against a good artifact and answers with
fresh history; with no artifact the no-knowledge-base error is raised. -/
theorem ask_question_unbound_rebind_witness :
    ask_question envReady botUnboundGood "What is X?" none =
      (Except.ok { answer := "the answer", status := "success",
                   conversation_id := none, question := "What is X?" },
       { botUnboundGood with vectorstore := some storeOld,
                             conversation_chain := some ⟨storeOld, [("What is X?", "the answer")]⟩ }) ∧
    ask_question envReady botNoArtifact "What is X?" none =
      (Except.error
        (PyError.valueError "No conversation chain available. Please process documents first."),
       botNoArtifact) :=
  ⟨(ask_question_unbound_rebind envReady botUnboundGood "What is X?" none rfl
      (by decide)).1 storeOld rfl rfl rfl,
   (ask_question_unbound_rebind envReady botNoArtifact "What is X?" none rfl
      (by decide)).2 (Or.inl rfl)⟩

/-! ## C6: binds install fresh memory, asks append turns in order -/

/-- C6: every successful `create_conversation_chain` installs a chain with a
fresh empty memory, whatever memory was accumulated before; between two binds,
each successfully answered question appends exactly one (question, answer)
turn in call order, so two asks after a bind leave exactly the two turns, and
a further bind resets the memory to empty again. -/
theorem create_chain_fresh_memory (env : Env) (bot : PDFChatbot) (s : FAISSStore)
    (q1 q2 : String) (id1 id2 : Option String)
    (hok : env.chainOk = true) (hllm : env.llmOk = true)
    (hq1 : pyStrip q1 ≠ "") (hq2 : pyStrip q2 ≠ "") :
    (create_conversation_chain env bot (some s)).2.conversation_chain = some ⟨s, []⟩ ∧
    (ask_question env (create_conversation_chain env bot (some s)).2 q1 id1).2.conversation_chain
      = some ⟨s, [(q1, env.llm s [] q1)]⟩ ∧
    (ask_question env
        (ask_question env (create_conversation_chain env bot (some s)).2 q1 id1).2
        q2 id2).2.conversation_chain
      = some ⟨s, [(q1, env.llm s [] q1),
                  (q2, env.llm s [(q1, env.llm s [] q1)] q2)]⟩ ∧
    (create_conversation_chain env
        (ask_question env
          (ask_question env (create_conversation_chain env bot (some s)).2 q1 id1).2
          q2 id2).2
        (some s)).2.conversation_chain = some ⟨s, []⟩ := by
  have h0 : create_conversation_chain env bot (some s) =
      (Except.ok ⟨s, []⟩, { bot with conversation_chain := some ⟨s, []⟩ }) := by
    simp [create_conversation_chain, py_or, hok]
  have h1 : ask_question env { bot with conversation_chain := some ⟨s, []⟩ } q1 id1 =
      (Except.ok { answer := env.llm s [] q1, status := "success",
                   conversation_id := id1, question := q1 },
       { bot with conversation_chain := some ⟨s, [(q1, env.llm s [] q1)]⟩ }) := by
    unfold ask_question
    rw [if_neg hq1]
    simp [ask_with_chain, run_chain, hllm]
  have h2 : ask_question env
      { bot with conversation_chain := some ⟨s, [(q1, env.llm s [] q1)]⟩ } q2 id2 =
      (Except.ok { answer := env.llm s [(q1, env.llm s [] q1)] q2, status := "success",
                   conversation_id := id2, question := q2 },
       { bot with conversation_chain := some ⟨s, [(q1, env.llm s [] q1),
          (q2, env.llm s [(q1, env.llm s [] q1)] q2)]⟩ }) := by
    unfold ask_question
    rw [if_neg hq2]
    simp [ask_with_chain, run_chain, hllm]
  refine ⟨by rw [h0], by rw [h0, h1], by rw [h0, h1, h2], ?_⟩
  rw [h0, h1, h2]
  simp [create_conversation_chain, py_or, hok]

/-- C6 (witness): bind, ask twice, observe exactly the two turns in order. -/
theorem create_chain_fresh_memory_witness :
    (ask_question envReady
        (ask_question envReady
          (create_conversation_chain envReady botBound (some storeOld)).2 "q1" none).2
        "q2" none).2.conversation_chain
      = some ⟨storeOld, [("q1", "the answer"), ("q2", "the answer")]⟩ :=
  (create_chain_fresh_memory envReady botBound storeOld "q1" "q2" none none
      rfl rfl (by decide) (by decide)).2.2.1

/-! ## C8: per-document recovery in text extraction -/

theorem extractPages_eq (pages : List PageResult) :
    ∀ acc, extractPages acc pages = acc ++ doc_contribution.pages_text_until_err pages := by
  induction pages with
  | nil =>
    intro acc
    simp [extractPages, doc_contribution.pages_text_until_err, str_append_empty]
  | cons p rest ih =>
    intro acc
    cases p with
    | ok s =>
      simp [extractPages, doc_contribution.pages_text_until_err, ih, str_append_assoc]
    | err =>
      simp [extractPages, doc_contribution.pages_text_until_err, str_append_empty]

theorem get_pdf_text_go (docs : List PDFDoc) :
    ∀ acc, docs.foldl (fun a d => if d.openOk then extractPages a d.pages else a) acc
      = acc ++ concat_all (docs.map doc_contribution) := by
  induction docs with
  | nil =>
    intro acc
    simp [concat_all, str_append_empty]
  | cons d rest ih =>
    intro acc
    simp only [List.foldl_cons, List.map_cons, concat_all]
    rw [ih]
    by_cases h : d.openOk = true
    · rw [if_pos h, extractPages_eq, str_append_assoc]
      simp [doc_contribution, h]
    · rw [if_neg h]
      simp [doc_contribution, h, str_empty_append]

theorem get_pdf_text_from_paths_go (paths : List (Option PDFDoc)) :
    ∀ acc, paths.foldl
        (fun a f => match f with
          | none => a
          | some d => if d.openOk then extractPages a d.pages else a) acc
      = acc ++ concat_all (paths.map path_contribution) := by
  induction paths with
  | nil =>
    intro acc
    simp [concat_all, str_append_empty]
  | cons f rest ih =>
    intro acc
    simp only [List.foldl_cons, List.map_cons, concat_all]
    rw [ih]
    cases f with
    | none =>
      simp only [path_contribution]
      rw [str_empty_append]
    | some d =>
      by_cases h : d.openOk = true
      · simp only [path_contribution]
        rw [if_pos h, extractPages_eq, str_append_assoc]
        simp [doc_contribution, h]
      · simp only [path_contribution]
        rw [if_neg h]
        simp [doc_contribution, h, str_empty_append]

theorem concat_all_of_all_empty (l : List String) (h : ∀ t ∈ l, t = "") :
    concat_all l = "" := by
  induction l with
  | nil => rfl
  | cons t rest ih =>
    rw [concat_all, h t (List.mem_cons_self t rest), ih (fun u hu => h u (List.mem_cons_of_mem t hu))]
    rfl

/-- C8 (counterexample): a document whose second page raises still contributes
the text of its first page — `get_pdf_text` keeps the partial prefix, so the
result is not the concatenation of the page texts of the documents that were
read successfully (which would be empty here). -/
theorem get_pdf_text_partial_counterexample :
    get_pdf_text [docPartial] = "a" ∧
    claimed_pdf_text [docPartial] = "" ∧
    get_pdf_text [docPartial] ≠ claimed_pdf_text [docPartial] := by
  refine ⟨rfl, rfl, ?_⟩
  decide

/-- C8 (amended): extraction catches each per-document failure individually
and continues with the remaining documents, never aborting the batch; the
result is the concatenation, in input order, of each document's page texts up
to its first failing page (all of them for documents read successfully,
nothing for documents that cannot be opened), and is the empty string when
every input yields no text. -/
theorem get_pdf_text_characterization :
    (∀ docs, get_pdf_text docs = concat_all (docs.map doc_contribution)) ∧
    (∀ paths, get_pdf_text_from_paths paths = concat_all (paths.map path_contribution)) ∧
    (∀ docs, (∀ d ∈ docs, doc_contribution d = "") → get_pdf_text docs = "") := by
  have h1 : ∀ docs, get_pdf_text docs = concat_all (docs.map doc_contribution) := by
    intro docs
    rw [get_pdf_text, get_pdf_text_go, str_empty_append]
  refine ⟨h1, ?_, ?_⟩
  · intro paths
    rw [get_pdf_text_from_paths, get_pdf_text_from_paths_go, str_empty_append]
  · intro docs h
    rw [h1 docs]
    exact concat_all_of_all_empty _ (by
      intro t ht
      rcases List.mem_map.mp ht with ⟨d, hd, rfl⟩
      exact h d hd)

/-- C8 (witness): a batch of one unreadable document and one whose only page
raises yields the empty string. -/
theorem get_pdf_text_characterization_witness :
    get_pdf_text docsNoText = "" :=
  get_pdf_text_characterization.2.2 docsNoText (by decide)

/-! ## C5: the chunker never subdivides a separator-free piece -/

theorem splitOnChar_no_sep (sep : Char) :
    ∀ cs : List Char, (∀ c ∈ cs, c ≠ sep) → splitOnChar sep cs = [cs] := by
  intro cs
  induction cs with
  | nil =>
    intro _
    rfl
  | cons x xs ih =>
    intro h
    have hx : ¬(x = sep) := h x (List.mem_cons_self x xs)
    have hrest : splitOnChar sep xs = [xs] :=
      ih (fun c hc => h c (List.mem_cons_of_mem x hc))
    simp [splitOnChar, hx, hrest]

theorem merge_step_init (t : String) :
    merge_step 1000 200 1 "\n" { docs := [], current := [], total := 0 } t =
      { docs := [], current := [t], total := t.length } := by
  simp only [merge_step]
  split <;> simp_all

theorem merge_splits_single (t : String) (h : pyStrip t ≠ "") :
    merge_splits 1000 200 1 "\n" [t] = [pyStrip t] := by
  have hjoin : join_docs [t] "\n" = some (pyStrip t) := by
    unfold join_docs
    simp only [pyJoin]
    rw [if_neg h]
  unfold merge_splits
  simp only [List.foldl_cons, List.foldl_nil, merge_step_init]
  rw [hjoin]
  rfl

theorem chunker_no_sep_aux (text : String)
    (hsep : ∀ c ∈ text.data, c ≠ '\n') (h : pyStrip text ≠ "") :
    get_text_chunks text = [pyStrip text] := by
  have htext : text ≠ "" := by
    intro he
    apply h
    rw [he]
    rfl
  have hsplit : pySplit '\n' text = [text] := by
    unfold pySplit
    rw [splitOnChar_no_sep '\n' text.data hsep]
    rfl
  unfold get_text_chunks
  rw [hsplit]
  have hfilter : List.filter (fun s => s ≠ "") [text] = [text] := by
    simp [htext]
  rw [hfilter, merge_splits_single text h]

theorem dropWhile_replicate (p : Char → Bool) (c : Char) (hp : p c = false) :
    ∀ n, List.dropWhile p (List.replicate n c) = List.replicate n c := by
  intro n
  cases n with
  | zero => rfl
  | succ m => simp [List.replicate_succ, List.dropWhile_cons, hp]

theorem big2500_length : big2500.length = 2500 := by
  show (List.replicate 2500 'a').length = 2500
  exact List.length_replicate 2500 'a'

theorem pyStrip_big2500 : pyStrip big2500 = big2500 := by
  have hp : Char.isWhitespace 'a' = false := by decide
  unfold pyStrip big2500
  rw [show (String.mk (List.replicate 2500 'a')).data = List.replicate 2500 'a' from rfl]
  rw [dropWhile_replicate _ _ hp, List.reverse_replicate, dropWhile_replicate _ _ hp,
    List.reverse_replicate]

theorem pyStrip_big2500_ne_empty : pyStrip big2500 ≠ "" := by
  rw [pyStrip_big2500]
  intro h
  have h2 : big2500.length = ("" : String).length := by rw [h]
  rw [big2500_length] at h2
  exact absurd h2 (by decide)

theorem big2500_no_newline : ∀ c ∈ big2500.data, c ≠ '\n' := by
  intro c hc
  have hca : c = 'a' := List.eq_of_mem_replicate hc
  rw [hca]
  decide

/-- C5 (counterexample): on the 2500-character input with no newline the
chunker produces one chunk of 2500 characters, not 3 chunks — the claimed
3-chunk/200-overlap shape fails for this 2500-character text. -/
theorem get_text_chunks_2500_counterexample :
    big2500.length = 2500 ∧ (get_text_chunks big2500).length = 1 ∧
    ¬((get_text_chunks big2500).length = 3) := by
  have h := chunker_no_sep_aux big2500 big2500_no_newline pyStrip_big2500_ne_empty
  rw [pyStrip_big2500] at h
  refine ⟨big2500_length, ?_, ?_⟩
  · rw [h]
    rfl
  · rw [h]
    decide

/-- C5 (amended): the chunker is configured with separator `"\n"`,
`chunk_size = 1000` and `chunk_overlap = 200`, but a piece containing no
separator is never subdivided however long it is: any input text without a
newline (and nonblank after stripping) yields the single chunk consisting of
the stripped input — in particular a 2500-character newline-free text yields
1 chunk of 2500 characters, not 3 chunks of lengths 1000/1000/at least 500
with 200-character overlaps.  The chunk list is finite and in input order by
construction. -/
theorem get_text_chunks_amended (text : String)
    (hsep : ∀ c ∈ text.data, c ≠ '\n') (h : pyStrip text ≠ "") :
    get_text_chunks text = [pyStrip text] :=
  chunker_no_sep_aux text hsep h

/-- C5 (witness): the amended theorem applied to the 2500-character
newline-free text. -/
theorem get_text_chunks_amended_witness :
    get_text_chunks big2500 = [big2500] := by
  have h := get_text_chunks_amended big2500 big2500_no_newline pyStrip_big2500_ne_empty
  rw [pyStrip_big2500] at h
  exact h

/-! ## C1: what each ingestion failure leaves behind -/

theorem process_documents_eq (env : Env) (bot : PDFChatbot) (docs : List PDFDoc) :
    process_documents env bot docs =
      (if pyStrip (get_pdf_text docs) = "" then
        (Except.error (PyError.valueError "No text could be extracted from the PDFs"), bot)
      else if env.buildOk = false then
        (Except.error (PyError.other "embedding or FAISS build failed"), bot)
      else
        match env.saveOutcome with
        | SaveOutcome.failOpen =>
          (Except.error (PyError.other "could not open vectorstore.pkl"),
           { bot with vectorstore := some ⟨get_text_chunks (get_pdf_text docs)⟩ })
        | SaveOutcome.failWrite =>
          (Except.error (PyError.other "write to vectorstore.pkl failed"),
           { bot with vectorstore := some ⟨get_text_chunks (get_pdf_text docs)⟩,
                      artifact := some Artifact.corrupt })
        | SaveOutcome.ok =>
          if env.chainOk = false then
            (Except.error (PyError.other "LLM or chain construction failed"),
             { bot with vectorstore := some ⟨get_text_chunks (get_pdf_text docs)⟩,
                        artifact := some (Artifact.good ⟨get_text_chunks (get_pdf_text docs)⟩) })
          else
            (Except.ok { status := "success",
                         chunks_created := (get_text_chunks (get_pdf_text docs)).length,
                         text_length := (get_pdf_text docs).length },
             { bot with vectorstore := some ⟨get_text_chunks (get_pdf_text docs)⟩,
                        artifact := some (Artifact.good ⟨get_text_chunks (get_pdf_text docs)⟩),
                        conversation_chain :=
                          some ⟨⟨get_text_chunks (get_pdf_text docs)⟩, []⟩ })) := by
  unfold process_documents
  by_cases hext : pyStrip (get_pdf_text docs) = ""
  · rw [if_pos hext, if_pos hext]
  · rw [if_neg hext, if_neg hext]
    cases hb : env.buildOk
    · simp [create_vectorstore, hb]
    · cases hs : env.saveOutcome <;>
        cases hc : env.chainOk <;>
          simp [create_vectorstore, save_vectorstore, create_conversation_chain,
            py_or, hb, hs, hc]

theorem process_documents_from_paths_eq (env : Env) (bot : PDFChatbot)
    (paths : List (Option PDFDoc)) :
    process_documents_from_paths env bot paths =
      (if pyStrip (get_pdf_text_from_paths paths) = "" then
        (Except.error (PyError.valueError "No text could be extracted from the PDFs"), bot)
      else if env.buildOk = false then
        (Except.error (PyError.other "embedding or FAISS build failed"), bot)
      else
        match env.saveOutcome with
        | SaveOutcome.failOpen =>
          (Except.error (PyError.other "could not open vectorstore.pkl"),
           { bot with vectorstore := some ⟨get_text_chunks (get_pdf_text_from_paths paths)⟩ })
        | SaveOutcome.failWrite =>
          (Except.error (PyError.other "write to vectorstore.pkl failed"),
           { bot with vectorstore := some ⟨get_text_chunks (get_pdf_text_from_paths paths)⟩,
                      artifact := some Artifact.corrupt })
        | SaveOutcome.ok =>
          if env.chainOk = false then
            (Except.error (PyError.other "LLM or chain construction failed"),
             { bot with vectorstore := some ⟨get_text_chunks (get_pdf_text_from_paths paths)⟩,
                        artifact :=
                          some (Artifact.good ⟨get_text_chunks (get_pdf_text_from_paths paths)⟩) })
          else
            (Except.ok { status := "success", files_processed := paths.length,
                         chunks_created := (get_text_chunks (get_pdf_text_from_paths paths)).length,
                         text_length := (get_pdf_text_from_paths paths).length },
             { bot with vectorstore := some ⟨get_text_chunks (get_pdf_text_from_paths paths)⟩,
                        artifact :=
                          some (Artifact.good ⟨get_text_chunks (get_pdf_text_from_paths paths)⟩),
                        conversation_chain :=
                          some ⟨⟨get_text_chunks (get_pdf_text_from_paths paths)⟩, []⟩ })) := by
  unfold process_documents_from_paths
  by_cases hext : pyStrip (get_pdf_text_from_paths paths) = ""
  · rw [if_pos hext, if_pos hext]
  · rw [if_neg hext, if_neg hext]
    cases hb : env.buildOk
    · simp [create_vectorstore, hb]
    · cases hs : env.saveOutcome <;>
        cases hc : env.chainOk <;>
          simp [create_vectorstore, save_vectorstore, create_conversation_chain,
            py_or, hb, hs, hc]

/-- C1 (counterexample): ingesting a readable batch over a previously bound
state with chain construction failing makes `process_documents` raise — yet
the persisted artifact and the in-memory vectorstore have already been
replaced by the new index, so the previous persisted artifact and previous
binding are not left as they were. -/
theorem process_documents_counterexample :
    is_success (process_documents envNoChain botBound docsHello).1 = false ∧
    (process_documents envNoChain botBound docsHello).2.artifact ≠ botBound.artifact ∧
    (process_documents envNoChain botBound docsHello).2.vectorstore ≠ botBound.vectorstore ∧
    (process_documents envNoChain botBound docsHello).2.conversation_chain
      = botBound.conversation_chain := by
  refine ⟨rfl, ?_, ?_, rfl⟩ <;> decide

/-- C1 (amended): ingestion is not all-or-nothing, but it degrades in a fixed
order.  A failure at the extraction-emptiness check or at the index build
leaves the persisted artifact, the in-memory vectorstore and the conversation
chain exactly as before (chunking itself cannot fail); no failure at any
stage ever replaces the previous conversation chain; however a failure at
save leaves the in-memory vectorstore already replaced by the new index — and
a write failure corrupts the artifact — and a failure at chain creation
leaves both the artifact and the in-memory vectorstore replaced by the new
index.  The same holds for `process_documents_from_paths`. -/
theorem process_documents_amended (env : Env) (bot : PDFChatbot)
    (docs : List PDFDoc) (paths : List (Option PDFDoc)) :
    (is_success (process_documents env bot docs).1 = false →
      (process_documents env bot docs).2.conversation_chain = bot.conversation_chain) ∧
    (pyStrip (get_pdf_text docs) = "" →
      process_documents env bot docs =
        (Except.error (PyError.valueError "No text could be extracted from the PDFs"), bot)) ∧
    (env.buildOk = false → (process_documents env bot docs).2 = bot) ∧
    (env.buildOk = true → env.saveOutcome = SaveOutcome.failOpen →
      pyStrip (get_pdf_text docs) ≠ "" →
      (process_documents env bot docs).2 =
        { bot with vectorstore := some ⟨get_text_chunks (get_pdf_text docs)⟩ }) ∧
    (env.buildOk = true → env.saveOutcome = SaveOutcome.failWrite →
      pyStrip (get_pdf_text docs) ≠ "" →
      (process_documents env bot docs).2 =
        { bot with vectorstore := some ⟨get_text_chunks (get_pdf_text docs)⟩,
                   artifact := some Artifact.corrupt }) ∧
    (env.buildOk = true → env.saveOutcome = SaveOutcome.ok → env.chainOk = false →
      pyStrip (get_pdf_text docs) ≠ "" →
      (process_documents env bot docs).2 =
        { bot with vectorstore := some ⟨get_text_chunks (get_pdf_text docs)⟩,
                   artifact := some (Artifact.good ⟨get_text_chunks (get_pdf_text docs)⟩) }) ∧
    (is_success (process_documents_from_paths env bot paths).1 = false →
      (process_documents_from_paths env bot paths).2.conversation_chain
        = bot.conversation_chain) ∧
    (pyStrip (get_pdf_text_from_paths paths) = "" →
      process_documents_from_paths env bot paths =
        (Except.error (PyError.valueError "No text could be extracted from the PDFs"), bot)) ∧
    (env.buildOk = false → (process_documents_from_paths env bot paths).2 = bot) ∧
    (env.buildOk = true → env.saveOutcome = SaveOutcome.ok → env.chainOk = false →
      pyStrip (get_pdf_text_from_paths paths) ≠ "" →
      (process_documents_from_paths env bot paths).2 =
        { bot with
            vectorstore := some ⟨get_text_chunks (get_pdf_text_from_paths paths)⟩,
            artifact :=
              some (Artifact.good ⟨get_text_chunks (get_pdf_text_from_paths paths)⟩) }) := by
  rw [process_documents_eq, process_documents_from_paths_eq]
  refine ⟨?_, ?_, ?_, ?_, ?_, ?_, ?_, ?_, ?_, ?_⟩
  · intro hfail
    by_cases hext : pyStrip (get_pdf_text docs) = ""
    · simp [hext]
    · cases hb : env.buildOk
      · simp [hext, hb]
      · cases hs : env.saveOutcome <;> cases hc : env.chainOk <;>
          simp_all [is_success]
  · intro hext
    simp [hext]
  · intro hb
    by_cases hext : pyStrip (get_pdf_text docs) = "" <;> simp [hext, hb]
  · intro hb hs hext
    simp [hext, hb, hs]
  · intro hb hs hext
    simp [hext, hb, hs]
  · intro hb hs hc hext
    simp [hext, hb, hs, hc]
  · intro hfail
    by_cases hext : pyStrip (get_pdf_text_from_paths paths) = ""
    · simp [hext]
    · cases hb : env.buildOk
      · simp [hext, hb]
      · cases hs : env.saveOutcome <;> cases hc : env.chainOk <;>
          simp_all [is_success]
  · intro hext
    simp [hext]
  · intro hb
    by_cases hext : pyStrip (get_pdf_text_from_paths paths) = "" <;> simp [hext, hb]
  · intro hb hs hc hext
    simp [hext, hb, hs, hc]

/-- C1 (witness): an empty batch extracts no text, so ingestion fails with
the batch-level error and the state is exactly as before. -/
theorem process_documents_amended_witness :
    process_documents envReady botBound [] =
      (Except.error (PyError.valueError "No text could be extracted from the PDFs"),
       botBound) :=
  (process_documents_amended envReady botBound [] []).2.1 rfl

end PdfChat
